import Mathlib

/-
Verification of the configuration and credential-provider layer of the
electrs fork (src/config.rs). The Rust code is shallowly embedded: clap
argument parsing is represented by an `Args` record holding the already
parsed argument values (with clap defaults applied where the source
declares a default_value), the host environment (logical CPU count and
home directory) by a `HostEnv` record, and the filesystem seen by
`fs::read` by a function from paths to optional byte contents. Paths
(Rust `PathBuf`) are modelled as the list of components pushed onto
them; `PathBuf::join` and `push` append a component. Fatal aborts
(`panic!`, `expect`) make the embedded `Config.fromArgs` return `none`.
-/

set_option autoImplicit false

namespace Electrs

/-- Byte strings, modelling Rust `Vec<u8>`. -/
abbrev Bytes := List UInt8

/-- Filesystem paths (`PathBuf`) as the list of components joined onto the
base; `p.join(c)` and `p.push(c)` append `c`. -/
abbrev FsPath := List String

/-- The filesystem visible to `std::fs::read`: `some contents` when the file
at the path is readable, `none` when it is missing or unreadable (any
`io::Error` from the read). -/
abbrev FileSystem := FsPath → Option Bytes

/-- Socket addresses (`std::net::SocketAddr`) after parsing: a host together
with a port. User-supplied address strings are parsed by the excluded
`str::parse` library call, so arguments carry the parsed form. -/
structure SocketAddr where
  host : String
  port : Nat
  deriving DecidableEq, Repr

/-- The bitcoin networks, from `bitcoin::network::constants::Network` as the
exhaustive matches in config.rs use it: Bitcoin (mainnet), Testnet, Regtest. -/
inductive Network where
  | bitcoin
  | testnet
  | regtest
  deriving DecidableEq, Repr

/-- Error kinds of the crate error type (`errors::ErrorKind`). The
`Connection` constructor is the one applied in src/config.rs; the
declaration itself lives in errors.rs, outside the excerpt.
Modelled from the spec: the remaining kinds follow section 7
("Connection", "DaemonRpc", "Store", "NotFound"). -/
inductive ErrorKind where
  | connection (msg : String)
  | daemonRpc (msg : String)
  | store (msg : String)
  | notFound (msg : String)
  deriving DecidableEq, Repr

/-- The message built by `CookieFile::get` when `fs::read` fails:
`format!("failed to read cookie from {:?}", path)`. -/
def cookieReadErrorMsg (path : FsPath) : String :=
  "failed to read cookie from " ++ toString path

/-- The two implementations of the `CookieGetter` trait declared in
src/config.rs: `StaticCookie \x7b value \x7d` and
`CookieFile \x7b daemon_dir \x7d`. -/
inductive CookieGetter where
  | staticCookie (value : Bytes)
  | cookieFile (daemonDir : FsPath)
  deriving DecidableEq, Repr

/-- The `get` method of the two `CookieGetter` implementations, as a function
of the filesystem at the moment of the call.
`StaticCookie::get` returns `Ok(self.value.clone())`.
`CookieFile::get` joins `".cookie"` onto `daemon_dir`, reads that file, and
wraps a read failure in `ErrorKind::Connection` via `chain_err`. -/
def CookieGetter.get : CookieGetter → FileSystem → Except ErrorKind Bytes
  | .staticCookie v, _ => .ok v
  | .cookieFile d, fs =>
      match fs (d ++ [".cookie"]) with
      | some contents => .ok contents
      | none => .error (.connection (cookieReadErrorMsg (d ++ [".cookie"])))

/-- The logging configuration built from the verbosity and timestamp
arguments (`stderrlog::StdErrLog` as configured in from_args). -/
structure LogConfig where
  verbosity : Nat
  timestampMs : Bool
  deriving DecidableEq, Repr

/-- The `Config` struct of src/config.rs. -/
structure Config where
  log : LogConfig
  networkType : Network
  dbPath : FsPath
  daemonDir : FsPath
  daemonRpcAddr : SocketAddr
  cookie : Option String
  electrumRpcAddr : SocketAddr
  httpAddr : SocketAddr
  monitoringAddr : SocketAddr
  jsonrpcImport : Bool
  indexBatchSize : Nat
  bulkIndexThreads : Nat
  txCacheSize : Nat
  extendedDbEnabled : Bool
  prevoutEnabled : Bool
  deriving DecidableEq, Repr

/-- The command-line arguments after clap parsing. Flags are booleans
(`is_present`), valued options are `Option`s (`value_of`), and the three
numeric options carry their clap `default_value` when absent:
index_batch_size defaults to 100, bulk_index_threads to 0,
tx_cache_size to 10000 (so an absent bulk-index-threads argument is the
value 0 here). Address options hold the parsed socket address. -/
structure Args where
  verbosity : Nat
  timestamp : Bool
  dbDir : Option String
  daemonDir : Option String
  cookie : Option String
  network : Option String
  electrumRpcAddr : Option SocketAddr
  httpAddr : Option SocketAddr
  daemonRpcAddr : Option SocketAddr
  monitoringAddr : Option SocketAddr
  jsonrpcImport : Bool
  indexBatchSize : Nat
  bulkIndexThreads : Nat
  txCacheSize : Nat
  light : Bool
  disablePrevout : Bool
  deriving DecidableEq, Repr

/-- The host environment read by from_args: `num_cpus::get()` and
`dirs::home_dir()` (`none` when there is no home directory). -/
structure HostEnv where
  numCpus : Nat
  homeDir : Option FsPath
  deriving Repr

/-- The network-name match of from_args: `"mainnet"`, `"testnet"` and
`"regtest"` map to their network; any other name hits
`panic!("unsupported Bitcoin network")`, embedded as `none`. -/
def networkTypeOfName (name : String) : Option Network :=
  if name = "mainnet" then some .bitcoin
  else if name = "testnet" then some .testnet
  else if name = "regtest" then some .regtest
  else none

/-- The canonical name of each network, inverse of `networkTypeOfName` on
the accepted names. -/
def networkName : Network → String
  | .bitcoin => "mainnet"
  | .testnet => "testnet"
  | .regtest => "regtest"

/-- The base daemon directory before the network subdirectory is pushed:
the daemon-dir argument when given, else the home directory with
`".viacoin"` pushed; `none` embeds the `expect("no homedir")` abort. -/
def daemonDirBase (args : Args) (env : HostEnv) : Option FsPath :=
  match args.daemonDir with
  | some p => some [p]
  | none =>
      match env.homeDir with
      | some h => some (h ++ [".viacoin"])
      | none => none

/-- The default daemon RPC port for each network (5222 / 25222 / 25222). -/
def defaultDaemonPort : Network → Nat
  | .bitcoin => 5222
  | .testnet => 25222
  | .regtest => 25222

/-- The default Electrum RPC port for each network (50001 / 60001 / 60401). -/
def defaultElectrumPort : Network → Nat
  | .bitcoin => 50001
  | .testnet => 60001
  | .regtest => 60401

/-- The default HTTP port for each network (3000 / 3001 / 3002). -/
def defaultHttpPort : Network → Nat
  | .bitcoin => 3000
  | .testnet => 3001
  | .regtest => 3002

/-- The default Prometheus monitoring port for each network
(4224 / 14224 / 24224). -/
def defaultMonitoringPort : Network → Nat
  | .bitcoin => 4224
  | .testnet => 14224
  | .regtest => 24224

/-- The network subdirectory pushed onto the daemon directory: nothing for
mainnet, `"testnet3"` for testnet, `"regtest"` for regtest. -/
def pushNetworkSubdir (nt : Network) (dir : FsPath) : FsPath :=
  match nt with
  | .bitcoin => dir
  | .testnet => dir ++ ["testnet3"]
  | .regtest => dir ++ ["regtest"]

/-- `Config::from_args`, as a function of the parsed arguments and the host
environment. `none` embeds the fatal aborts reachable from the modelled
inputs: the unsupported-network panic and the missing-homedir expect.
The body follows src/config.rs lines 133-231: resolve the network name
(default "mainnet"), join it onto the db directory (default "./db"),
fill each absent address with 127.0.0.1 at the network default port,
push the network subdirectory onto the daemon directory, build the log
settings, and replace a zero bulk_index_threads with the CPU count.
`buildConfig` is the `Config` literal of lines 212-228, given the
already resolved network type and base daemon directory; `fromArgs`
wraps it in the two abort checks. -/
def buildConfig (args : Args) (env : HostEnv) (networkType : Network)
    (base : FsPath) : Config :=
  { log := { verbosity := args.verbosity, timestampMs := args.timestamp }
    networkType := networkType
    dbPath := [args.dbDir.getD "./db"] ++ [args.network.getD "mainnet"]
    daemonDir := pushNetworkSubdir networkType base
    daemonRpcAddr :=
      args.daemonRpcAddr.getD ⟨"127.0.0.1", defaultDaemonPort networkType⟩
    cookie := args.cookie
    electrumRpcAddr :=
      args.electrumRpcAddr.getD ⟨"127.0.0.1", defaultElectrumPort networkType⟩
    httpAddr := args.httpAddr.getD ⟨"127.0.0.1", defaultHttpPort networkType⟩
    monitoringAddr :=
      args.monitoringAddr.getD ⟨"127.0.0.1", defaultMonitoringPort networkType⟩
    jsonrpcImport := args.jsonrpcImport
    indexBatchSize := args.indexBatchSize
    bulkIndexThreads :=
      if args.bulkIndexThreads = 0 then env.numCpus else args.bulkIndexThreads
    txCacheSize := args.txCacheSize
    extendedDbEnabled := !args.light
    prevoutEnabled := !args.disablePrevout }

def Config.fromArgs (args : Args) (env : HostEnv) : Option Config :=
  match networkTypeOfName (args.network.getD "mainnet"), daemonDirBase args env with
  | some networkType, some base => some (buildConfig args env networkType base)
  | _, _ => none

/-- `Config::cookie_getter`: a `StaticCookie` holding the UTF-8 bytes of the
cookie string when one was supplied, else a `CookieFile` holding the
daemon directory. -/
def Config.cookieGetter (c : Config) : CookieGetter :=
  match c.cookie with
  | some value => .staticCookie value.toUTF8.toList
  | none => .cookieFile c.daemonDir

/-- Arguments with every option absent and every flag off, as clap yields
them when the binary is started with no arguments (numeric defaults
applied). Used as the concrete base input of the witnesses. -/
def argsStd : Args where
  verbosity := 0
  timestamp := false
  dbDir := none
  daemonDir := none
  cookie := none
  network := none
  electrumRpcAddr := none
  httpAddr := none
  daemonRpcAddr := none
  monitoringAddr := none
  jsonrpcImport := false
  indexBatchSize := 100
  bulkIndexThreads := 0
  txCacheSize := 10000
  light := false
  disablePrevout := false

/-- A concrete host environment: 4 logical CPUs and a home directory. -/
def envStd : HostEnv where
  numCpus := 4
  homeDir := some ["/home/user"]

/-- The configuration produced from `argsStd` under `envStd`. -/
def cfgStd : Config where
  log := { verbosity := 0, timestampMs := false }
  networkType := .bitcoin
  dbPath := ["./db", "mainnet"]
  daemonDir := ["/home/user", ".viacoin"]
  daemonRpcAddr := ⟨"127.0.0.1", 5222⟩
  cookie := none
  electrumRpcAddr := ⟨"127.0.0.1", 50001⟩
  httpAddr := ⟨"127.0.0.1", 3000⟩
  monitoringAddr := ⟨"127.0.0.1", 4224⟩
  jsonrpcImport := false
  indexBatchSize := 100
  bulkIndexThreads := 4
  txCacheSize := 10000
  extendedDbEnabled := true
  prevoutEnabled := true

/-- C1: the file-backed provider holds only the daemon directory, so each
call to `get` returns exactly what the filesystem holds at
`daemon_dir/.cookie` at the moment of that call: two calls under
different filesystem states return the respective current contents,
with no caching of the first result. -/
theorem cookieFile_get_uncached (d : FsPath) (fs1 fs2 : FileSystem) (c1 c2 : Bytes)
    (h1 : fs1 (d ++ [".cookie"]) = some c1) (h2 : fs2 (d ++ [".cookie"]) = some c2) :
    (CookieGetter.cookieFile d).get fs1 = .ok c1 ∧
      (CookieGetter.cookieFile d).get fs2 = .ok c2 := by
  constructor <;> simp [CookieGetter.get, h1, h2]

/-- C1 witness: concrete rotation, the file first holds `[1]`, then `[2]`;
the first call returns `[1]` and the second returns `[2]`. -/
theorem cookieFile_get_uncached_witness :
    (CookieGetter.cookieFile ["dir"]).get (fun _ => some [1]) = .ok [1] ∧
      (CookieGetter.cookieFile ["dir"]).get (fun _ => some [2]) = .ok [2] :=
  cookieFile_get_uncached ["dir"] (fun _ => some [1]) (fun _ => some [2]) [1] [2] rfl rfl

/-- C2: when the cookie file is missing or unreadable, `CookieFile::get`
returns an error of kind `Connection` (not `DaemonRpc`, not `NotFound`,
not a transport error); when the file is readable it returns `Ok` with
the bytes read. -/
theorem cookieFile_get_error_kind (d : FsPath) (fs : FileSystem) :
    (fs (d ++ [".cookie"]) = none →
      (CookieGetter.cookieFile d).get fs =
        .error (.connection (cookieReadErrorMsg (d ++ [".cookie"])))) ∧
      (∀ c, fs (d ++ [".cookie"]) = some c →
        (CookieGetter.cookieFile d).get fs = .ok c) := by
  constructor
  · intro h
    simp [CookieGetter.get, h]
  · intro c h
    simp [CookieGetter.get, h]

/-- C2 witness: under an empty filesystem the concrete provider returns the
`Connection` error, and under a filesystem holding `[7]` it returns
`Ok [7]`. -/
theorem cookieFile_get_error_kind_witness :
    (CookieGetter.cookieFile ["dir"]).get (fun _ => none) =
        .error (.connection (cookieReadErrorMsg ["dir", ".cookie"])) ∧
      (CookieGetter.cookieFile ["dir"]).get (fun _ => some [7]) = .ok [7] :=
  ⟨(cookieFile_get_error_kind ["dir"] (fun _ => none)).1 rfl,
    (cookieFile_get_error_kind ["dir"] (fun _ => some [7])).2 [7] rfl⟩

/-- C3: the static provider returns `Ok` of exactly its fixed byte string on
every call (the result does not depend on the filesystem state, so
repeated calls all return the same bytes) and never returns an error. -/
theorem staticCookie_get_verbatim (v : Bytes) (fs : FileSystem) :
    (CookieGetter.staticCookie v).get fs = .ok v := rfl

/-- C4: `cookie_getter` selects between exactly the two variants: a supplied
cookie string yields the static variant carrying precisely the UTF-8
bytes of that string, and an absent cookie yields the file-backed
variant over the configured daemon directory, whose every `get` reads
the single file named ".cookie" inside that directory. -/
theorem cookieGetter_selection (c : Config) :
    (∀ s, c.cookie = some s → c.cookieGetter = .staticCookie s.toUTF8.toList) ∧
      (c.cookie = none → c.cookieGetter = .cookieFile c.daemonDir) ∧
      (c.cookie = none → ∀ fs : FileSystem, ∀ cts,
        fs (c.daemonDir ++ [".cookie"]) = some cts → c.cookieGetter.get fs = .ok cts) := by
  refine ⟨fun s hs => ?_, fun hn => ?_, fun hn fs cts hfs => ?_⟩
  · simp [Config.cookieGetter, hs]
  · simp [Config.cookieGetter, hn]
  · simp [Config.cookieGetter, hn, CookieGetter.get, hfs]

/-- C4 witness: the concrete config without a cookie yields the file-backed
variant reading `/home/user/.viacoin/.cookie`, and the same config with
cookie string "u:p" yields the static variant with the bytes of "u:p". -/
theorem cookieGetter_selection_witness :
    cfgStd.cookieGetter = .cookieFile ["/home/user", ".viacoin"] ∧
      ({ cfgStd with cookie := some "u:p" } : Config).cookieGetter =
        .staticCookie ("u:p".toUTF8.toList) ∧
      cfgStd.cookieGetter.get
          (fun p => if p = ["/home/user", ".viacoin", ".cookie"] then some [9] else none) =
        .ok [9] :=
  ⟨(cookieGetter_selection cfgStd).2.1 rfl,
    (cookieGetter_selection { cfgStd with cookie := some "u:p" }).1 "u:p" rfl,
    (cookieGetter_selection cfgStd).2.2 rfl
      (fun p => if p = ["/home/user", ".viacoin", ".cookie"] then some [9] else none) [9]
      (by simp [cfgStd])⟩

/-- Destructor for a successful `fromArgs` run: it names the resolved
network type and base daemon directory and exposes the produced record. -/
theorem fromArgs_some_elim {args : Args} {env : HostEnv} {cfg : Config}
    (h : Config.fromArgs args env = some cfg) :
    ∃ nt base, networkTypeOfName (args.network.getD "mainnet") = some nt ∧
      daemonDirBase args env = some base ∧ cfg = buildConfig args env nt base := by
  unfold Config.fromArgs at h
  cases hnt : networkTypeOfName (args.network.getD "mainnet") with
  | none => rw [hnt] at h; exact absurd h (by simp)
  | some nt =>
      cases hdb : daemonDirBase args env with
      | none => rw [hnt, hdb] at h; exact absurd h (by simp)
      | some base =>
          rw [hnt, hdb] at h
          exact ⟨nt, base, rfl, rfl, (Option.some.injEq _ _ ▸ h).symm⟩

/-- C5: when the bulk-index-threads argument is absent or given as 0 (clap
substitutes the declared default 0 for an absent argument), the produced
configuration uses the logical CPU count of the host; a non-zero value
is used unchanged. -/
theorem fromArgs_bulkIndexThreads (args : Args) (env : HostEnv) (cfg : Config)
    (h : Config.fromArgs args env = some cfg) :
    (args.bulkIndexThreads = 0 → cfg.bulkIndexThreads = env.numCpus) ∧
      (args.bulkIndexThreads ≠ 0 → cfg.bulkIndexThreads = args.bulkIndexThreads) := by
  obtain ⟨nt, base, -, -, hcfg⟩ := fromArgs_some_elim h
  subst hcfg
  constructor <;> intro h0 <;> simp [buildConfig, h0]

/-- C5 witness: with the default argument value 0 and 4 CPUs the pool size
is 4; with an explicit 3 it stays 3. -/
theorem fromArgs_bulkIndexThreads_witness :
    cfgStd.bulkIndexThreads = envStd.numCpus ∧
      ({ cfgStd with bulkIndexThreads := 3 } : Config).bulkIndexThreads = 3 :=
  ⟨(fromArgs_bulkIndexThreads argsStd envStd cfgStd (by decide)).1 rfl,
    (fromArgs_bulkIndexThreads { argsStd with bulkIndexThreads := 3 } envStd
        { cfgStd with bulkIndexThreads := 3 } (by decide)).2 (by decide)⟩

/-- C7: prevout_enabled is the negation of the disable-prevout flag and
extended_db_enabled is the negation of the light flag, so both gates
default to enabled when the flags are absent. -/
theorem fromArgs_feature_toggles (args : Args) (env : HostEnv) (cfg : Config)
    (h : Config.fromArgs args env = some cfg) :
    cfg.prevoutEnabled = !args.disablePrevout ∧
      cfg.extendedDbEnabled = !args.light := by
  obtain ⟨nt, base, -, -, hcfg⟩ := fromArgs_some_elim h
  subst hcfg
  exact ⟨rfl, rfl⟩

/-- C7 witness: with both flags absent both toggles are true in the concrete
configuration. -/
theorem fromArgs_feature_toggles_witness :
    cfgStd.prevoutEnabled = !argsStd.disablePrevout ∧
      cfgStd.extendedDbEnabled = !argsStd.light :=
  fromArgs_feature_toggles argsStd envStd cfgStd (by decide)

/-- A resolved network name is the canonical name of the resolved network. -/
theorem networkTypeOfName_eq_some_name {n : String} {nt : Network}
    (h : networkTypeOfName n = some nt) : n = networkName nt := by
  unfold networkTypeOfName at h
  split_ifs at h with h1 h2 h3
  · injection h with h4; subst h4; exact h1
  · injection h with h4; subst h4; exact h2
  · injection h with h4; subst h4; exact h3

/-- The network-name match rejects exactly the names outside the three
accepted ones. -/
theorem networkTypeOfName_none_iff (n : String) :
    networkTypeOfName n = none ↔ ¬(n = "mainnet" ∨ n = "testnet" ∨ n = "regtest") := by
  unfold networkTypeOfName
  split_ifs <;> simp_all

/-- Distinct networks have distinct canonical names. -/
theorem networkName_injective (nt1 nt2 : Network)
    (h : networkName nt1 = networkName nt2) : nt1 = nt2 := by
  cases nt1 <;> cases nt2 <;> first | rfl | exact absurd h (by decide)

/-- The configuration produced from `argsStd` with the testnet network
selected, under `envStd`. -/
def cfgTestnetStd : Config where
  log := { verbosity := 0, timestampMs := false }
  networkType := .testnet
  dbPath := ["./db", "testnet"]
  daemonDir := ["/home/user", ".viacoin", "testnet3"]
  daemonRpcAddr := ⟨"127.0.0.1", 25222⟩
  cookie := none
  electrumRpcAddr := ⟨"127.0.0.1", 60001⟩
  httpAddr := ⟨"127.0.0.1", 3001⟩
  monitoringAddr := ⟨"127.0.0.1", 14224⟩
  jsonrpcImport := false
  indexBatchSize := 100
  bulkIndexThreads := 4
  txCacheSize := 10000
  extendedDbEnabled := true
  prevoutEnabled := true

/-- `argsStd` with all four listening and connection addresses supplied
explicitly. -/
def argsAddrStd : Args :=
  { argsStd with
    daemonRpcAddr := some ⟨"10.0.0.1", 1111⟩
    electrumRpcAddr := some ⟨"10.0.0.2", 2222⟩
    httpAddr := some ⟨"10.0.0.3", 3333⟩
    monitoringAddr := some ⟨"10.0.0.4", 4444⟩ }

/-- The configuration produced from `argsAddrStd` with mainnet selected. -/
def cfgAddrMain : Config :=
  { cfgStd with
    daemonRpcAddr := ⟨"10.0.0.1", 1111⟩
    electrumRpcAddr := ⟨"10.0.0.2", 2222⟩
    httpAddr := ⟨"10.0.0.3", 3333⟩
    monitoringAddr := ⟨"10.0.0.4", 4444⟩ }

/-- The configuration produced from `argsAddrStd` with testnet selected. -/
def cfgAddrTest : Config :=
  { cfgTestnetStd with
    daemonRpcAddr := ⟨"10.0.0.1", 1111⟩
    electrumRpcAddr := ⟨"10.0.0.2", 2222⟩
    httpAddr := ⟨"10.0.0.3", 3333⟩
    monitoringAddr := ⟨"10.0.0.4", 4444⟩ }

/-- C6: two runs whose arguments differ only in the selected network differ
only in the network type, the network-derived default addresses and the
network-specific path suffixes, and in nothing else: cookie,
jsonrpc_import, index_batch_size, bulk_index_threads, tx_cache_size,
extended_db_enabled, prevout_enabled and the log settings are equal;
each address that was supplied explicitly (hence not network-derived) is
equal, and each absent address is 127.0.0.1 at the default port of the
run's own network (same host, only the network-derived port varies);
both daemon data directories are the same shared base directory with
only the network subdirectory pushed, and both store paths are the same
configured database directory with only the network name joined. -/
theorem fromArgs_network_only (a : Args) (env : HostEnv) (n1 n2 : Option String)
    (cfg1 cfg2 : Config) (base : FsPath)
    (h1 : Config.fromArgs { a with network := n1 } env = some cfg1)
    (h2 : Config.fromArgs { a with network := n2 } env = some cfg2)
    (hb : daemonDirBase a env = some base) :
    cfg1.cookie = cfg2.cookie ∧ cfg1.jsonrpcImport = cfg2.jsonrpcImport ∧
      cfg1.indexBatchSize = cfg2.indexBatchSize ∧
      cfg1.bulkIndexThreads = cfg2.bulkIndexThreads ∧
      cfg1.txCacheSize = cfg2.txCacheSize ∧
      cfg1.extendedDbEnabled = cfg2.extendedDbEnabled ∧
      cfg1.prevoutEnabled = cfg2.prevoutEnabled ∧
      cfg1.log = cfg2.log ∧
      (a.daemonRpcAddr.isSome → cfg1.daemonRpcAddr = cfg2.daemonRpcAddr) ∧
      (a.electrumRpcAddr.isSome → cfg1.electrumRpcAddr = cfg2.electrumRpcAddr) ∧
      (a.httpAddr.isSome → cfg1.httpAddr = cfg2.httpAddr) ∧
      (a.monitoringAddr.isSome → cfg1.monitoringAddr = cfg2.monitoringAddr) ∧
      cfg1.daemonDir = pushNetworkSubdir cfg1.networkType base ∧
      cfg2.daemonDir = pushNetworkSubdir cfg2.networkType base ∧
      cfg1.dbPath = [a.dbDir.getD "./db"] ++ [networkName cfg1.networkType] ∧
      cfg2.dbPath = [a.dbDir.getD "./db"] ++ [networkName cfg2.networkType] ∧
      (a.daemonRpcAddr = none →
        cfg1.daemonRpcAddr = ⟨"127.0.0.1", defaultDaemonPort cfg1.networkType⟩ ∧
          cfg2.daemonRpcAddr = ⟨"127.0.0.1", defaultDaemonPort cfg2.networkType⟩) ∧
      (a.electrumRpcAddr = none →
        cfg1.electrumRpcAddr = ⟨"127.0.0.1", defaultElectrumPort cfg1.networkType⟩ ∧
          cfg2.electrumRpcAddr = ⟨"127.0.0.1", defaultElectrumPort cfg2.networkType⟩) ∧
      (a.httpAddr = none →
        cfg1.httpAddr = ⟨"127.0.0.1", defaultHttpPort cfg1.networkType⟩ ∧
          cfg2.httpAddr = ⟨"127.0.0.1", defaultHttpPort cfg2.networkType⟩) ∧
      (a.monitoringAddr = none →
        cfg1.monitoringAddr = ⟨"127.0.0.1", defaultMonitoringPort cfg1.networkType⟩ ∧
          cfg2.monitoringAddr = ⟨"127.0.0.1", defaultMonitoringPort cfg2.networkType⟩) := by
  obtain ⟨nt1, base1, hnt1, hb1, hc1⟩ := fromArgs_some_elim h1
  obtain ⟨nt2, base2, hnt2, hb2, hc2⟩ := fromArgs_some_elim h2
  subst hc1; subst hc2
  have hbeq1 : daemonDirBase { a with network := n1 } env = daemonDirBase a env := rfl
  have hbeq2 : daemonDirBase { a with network := n2 } env = daemonDirBase a env := rfl
  rw [hbeq1, hb] at hb1
  rw [hbeq2, hb] at hb2
  injection hb1 with hb1
  injection hb2 with hb2
  subst hb1; subst hb2
  have e1 := networkTypeOfName_eq_some_name hnt1
  have e2 := networkTypeOfName_eq_some_name hnt2
  refine ⟨rfl, rfl, rfl, rfl, rfl, rfl, rfl, rfl, ?_, ?_, ?_, ?_, rfl, rfl,
      ?_, ?_, ?_, ?_, ?_, ?_⟩
  · intro hs
    obtain ⟨x, hx⟩ := Option.isSome_iff_exists.mp hs
    simp [buildConfig, hx]
  · intro hs
    obtain ⟨x, hx⟩ := Option.isSome_iff_exists.mp hs
    simp [buildConfig, hx]
  · intro hs
    obtain ⟨x, hx⟩ := Option.isSome_iff_exists.mp hs
    simp [buildConfig, hx]
  · intro hs
    obtain ⟨x, hx⟩ := Option.isSome_iff_exists.mp hs
    simp [buildConfig, hx]
  · simp only [buildConfig]
    rw [show ({ a with network := n1 } : Args).network.getD "mainnet" =
      networkName nt1 from e1]
  · simp only [buildConfig]
    rw [show ({ a with network := n2 } : Args).network.getD "mainnet" =
      networkName nt2 from e2]
  · intro hn
    exact ⟨by simp [buildConfig, hn], by simp [buildConfig, hn]⟩
  · intro hn
    exact ⟨by simp [buildConfig, hn], by simp [buildConfig, hn]⟩
  · intro hn
    exact ⟨by simp [buildConfig, hn], by simp [buildConfig, hn]⟩
  · intro hn
    exact ⟨by simp [buildConfig, hn], by simp [buildConfig, hn]⟩

/-- C6 witness: the mainnet and testnet runs over identical remaining
arguments agree on every non-network-derived field; with all four
addresses supplied the addresses are equal, and with all four absent
each run gets 127.0.0.1 at the default port of its own network; both
daemon directories extend the shared base /home/user/.viacoin and both
store paths extend the shared ./db. -/
theorem fromArgs_network_only_witness :
    cfgAddrMain.cookie = cfgAddrTest.cookie ∧
      cfgAddrMain.jsonrpcImport = cfgAddrTest.jsonrpcImport ∧
      cfgAddrMain.indexBatchSize = cfgAddrTest.indexBatchSize ∧
      cfgAddrMain.bulkIndexThreads = cfgAddrTest.bulkIndexThreads ∧
      cfgAddrMain.txCacheSize = cfgAddrTest.txCacheSize ∧
      cfgAddrMain.extendedDbEnabled = cfgAddrTest.extendedDbEnabled ∧
      cfgAddrMain.prevoutEnabled = cfgAddrTest.prevoutEnabled ∧
      cfgAddrMain.log = cfgAddrTest.log ∧
      cfgAddrMain.daemonRpcAddr = cfgAddrTest.daemonRpcAddr ∧
      cfgAddrMain.electrumRpcAddr = cfgAddrTest.electrumRpcAddr ∧
      cfgAddrMain.httpAddr = cfgAddrTest.httpAddr ∧
      cfgAddrMain.monitoringAddr = cfgAddrTest.monitoringAddr ∧
      cfgStd.daemonDir = pushNetworkSubdir cfgStd.networkType ["/home/user", ".viacoin"] ∧
      cfgTestnetStd.daemonDir =
        pushNetworkSubdir cfgTestnetStd.networkType ["/home/user", ".viacoin"] ∧
      cfgStd.dbPath = [argsStd.dbDir.getD "./db"] ++ [networkName cfgStd.networkType] ∧
      cfgTestnetStd.dbPath =
        [argsStd.dbDir.getD "./db"] ++ [networkName cfgTestnetStd.networkType] ∧
      cfgStd.daemonRpcAddr = ⟨"127.0.0.1", defaultDaemonPort cfgStd.networkType⟩ ∧
      cfgTestnetStd.daemonRpcAddr =
        ⟨"127.0.0.1", defaultDaemonPort cfgTestnetStd.networkType⟩ ∧
      cfgStd.electrumRpcAddr = ⟨"127.0.0.1", defaultElectrumPort cfgStd.networkType⟩ ∧
      cfgTestnetStd.monitoringAddr =
        ⟨"127.0.0.1", defaultMonitoringPort cfgTestnetStd.networkType⟩ := by
  have happ1 := fromArgs_network_only argsAddrStd envStd (some "mainnet") (some "testnet")
    cfgAddrMain cfgAddrTest ["/home/user", ".viacoin"] (by decide) (by decide) (by decide)
  have happ2 := fromArgs_network_only argsStd envStd (some "mainnet") (some "testnet")
    cfgStd cfgTestnetStd ["/home/user", ".viacoin"] (by decide) (by decide) (by decide)
  obtain ⟨w1, w2, w3, w4, w5, w6, w7, w8, w9, w10, w11, w12, -, -, -, -, -, -, -, -⟩ :=
    happ1
  obtain ⟨-, -, -, -, -, -, -, -, -, -, -, -, v13, v14, v15, v16, v17, v18, v19, v20⟩ :=
    happ2
  exact ⟨w1, w2, w3, w4, w5, w6, w7, w8, w9 (by decide), w10 (by decide), w11 (by decide),
    w12 (by decide), v13, v14, v15, v16, (v17 rfl).1, (v17 rfl).2, (v18 rfl).1,
    (v20 rfl).2⟩

/-- C8: the resolved network name (defaulting to "mainnet" when the
argument is absent) is accepted exactly when it is one of "mainnet",
"testnet", "regtest": any other name aborts the run (no silent fallback),
an accepted name yields a configuration (given the daemon directory
resolves), and an absent argument selects mainnet. -/
theorem fromArgs_network_validation (args : Args) (env : HostEnv) :
    ((args.network.getD "mainnet") ∉ (["mainnet", "testnet", "regtest"] : List String) →
      Config.fromArgs args env = none) ∧
      ((daemonDirBase args env).isSome →
        (args.network.getD "mainnet") ∈ (["mainnet", "testnet", "regtest"] : List String) →
        (Config.fromArgs args env).isSome) ∧
      (args.network = none → ∀ cfg, Config.fromArgs args env = some cfg →
        cfg.networkType = Network.bitcoin) := by
  refine ⟨fun hmem => ?_, fun hdd hmem => ?_, fun hnone cfg h => ?_⟩
  · have hn : networkTypeOfName (args.network.getD "mainnet") = none := by
      rw [networkTypeOfName_none_iff]
      simpa using hmem
    unfold Config.fromArgs
    rw [hn]
  · obtain ⟨base, hbase⟩ := Option.isSome_iff_exists.mp hdd
    have hn : ∃ nt, networkTypeOfName (args.network.getD "mainnet") = some nt := by
      rcases (by simpa using hmem : args.network.getD "mainnet" = "mainnet" ∨
          args.network.getD "mainnet" = "testnet" ∨
          args.network.getD "mainnet" = "regtest") with h | h | h <;>
        · rw [h]; exact ⟨_, rfl⟩
    obtain ⟨nt, hnt⟩ := hn
    unfold Config.fromArgs
    rw [hnt, hbase]
    rfl
  · obtain ⟨nt, base, hnt, -, hcfg⟩ := fromArgs_some_elim h
    subst hcfg
    rw [hnone] at hnt
    have hname : ("mainnet" : String) = networkName nt :=
      networkTypeOfName_eq_some_name hnt
    have hbit : nt = Network.bitcoin := by
      cases nt
      · rfl
      · exact absurd hname (by decide)
      · exact absurd hname (by decide)
    subst hbit
    rfl

/-- C8 witness: the name "florin" aborts the run, "testnet" is accepted, and
the run without a network argument selects mainnet (Bitcoin). -/
theorem fromArgs_network_validation_witness :
    Config.fromArgs { argsStd with network := some "florin" } envStd = none ∧
      (Config.fromArgs { argsStd with network := some "testnet" } envStd).isSome ∧
      cfgStd.networkType = Network.bitcoin :=
  ⟨(fromArgs_network_validation { argsStd with network := some "florin" } envStd).1
      (by decide),
    (fromArgs_network_validation { argsStd with network := some "testnet" } envStd).2.1
      (by decide) (by decide),
    (fromArgs_network_validation argsStd envStd).2.2 rfl cfgStd (by decide)⟩

/-- C10: the store path of every produced configuration is the configured
database directory (default "./db") joined with the selected network
name as a subdirectory; hence two runs that select different networks
never share the same store path. -/
theorem fromArgs_dbPath_network (args1 args2 : Args) (env1 env2 : HostEnv)
    (cfg1 cfg2 : Config)
    (h1 : Config.fromArgs args1 env1 = some cfg1)
    (h2 : Config.fromArgs args2 env2 = some cfg2) :
    cfg1.dbPath = [args1.dbDir.getD "./db"] ++ [networkName cfg1.networkType] ∧
      cfg2.dbPath = [args2.dbDir.getD "./db"] ++ [networkName cfg2.networkType] ∧
      (cfg1.networkType ≠ cfg2.networkType → cfg1.dbPath ≠ cfg2.dbPath) := by
  obtain ⟨nt1, base1, hnt1, -, hc1⟩ := fromArgs_some_elim h1
  obtain ⟨nt2, base2, hnt2, -, hc2⟩ := fromArgs_some_elim h2
  subst hc1; subst hc2
  have e1 : args1.network.getD "mainnet" = networkName nt1 :=
    networkTypeOfName_eq_some_name hnt1
  have e2 : args2.network.getD "mainnet" = networkName nt2 :=
    networkTypeOfName_eq_some_name hnt2
  refine ⟨by simp [buildConfig, e1], by simp [buildConfig, e2], fun hne heq => hne ?_⟩
  show nt1 = nt2
  simp only [buildConfig, e1, e2, List.cons_append, List.nil_append,
    List.cons.injEq, and_true] at heq
  exact networkName_injective nt1 nt2 heq.2

/-- C10 witness: the mainnet run stores under ./db/mainnet, the testnet run
under ./db/testnet, and the two store paths are distinct. -/
theorem fromArgs_dbPath_network_witness :
    cfgStd.dbPath = ["./db", networkName cfgStd.networkType] ∧
      cfgTestnetStd.dbPath = ["./db", networkName cfgTestnetStd.networkType] ∧
      (cfgStd.networkType ≠ cfgTestnetStd.networkType →
        cfgStd.dbPath ≠ cfgTestnetStd.dbPath) :=
  fromArgs_dbPath_network argsStd { argsStd with network := some "testnet" }
    envStd envStd cfgStd cfgTestnetStd (by decide) (by decide)

/-- C9: whenever the host reports at least one logical CPU, every produced
configuration has bulk_index_threads at least 1: the zero default is
always replaced, so the worker pool is never empty. -/
theorem fromArgs_bulkIndexThreads_pos (args : Args) (env : HostEnv) (cfg : Config)
    (h : Config.fromArgs args env = some cfg) (hcpu : 1 ≤ env.numCpus) :
    1 ≤ cfg.bulkIndexThreads := by
  obtain ⟨nt, base, -, -, hcfg⟩ := fromArgs_some_elim h
  subst hcfg
  simp only [buildConfig]
  split
  · exact hcpu
  · omega

/-- C9 witness: the concrete run on a 4-CPU host yields a positive pool
size. -/
theorem fromArgs_bulkIndexThreads_pos_witness : 1 ≤ cfgStd.bulkIndexThreads :=
  fromArgs_bulkIndexThreads_pos argsStd envStd cfgStd (by decide) (by decide)

end Electrs
